import Mathlib

/-!
Shallow embedding of the Game of Ur rules engine (`main.py` / `game_pieces.py`).

The presentation layer (Maya models, shaders, UI widgets) is out of scope; the
embedding covers the board data, per-player paths, tokens, the move resolver
(`Token.check_move` / `Token.action` / `Token.can_move`) and the turn state
machine of `GameManager` (`roll_dice`, `_selection_made`, `end_turn`,
`start_game`, `score_point`, `win_game`, `free_turn`).

Conventions:
- Python `None` becomes `Option.none`; fallible list indexing returns `Option`.
- The `Signal` class in `utils.py` calls its subscribers synchronously, so the
  signal chains (`point_scored -> score_point`, `move_successful ->
  piece_moved`, `die_clicked -> roll_dice`) are inlined as direct calls,
  in emission order.
- Dice randomness is externalised: a step supplies the rolled total (0..4).
-/

namespace Ur

/-- Message identifiers from `utils.Messages` (string constants in the source). -/
inductive Msg where
  | INVALID_MOVE
  | FREE_TURN
  | MOVE_BLOCKED
  | FRIENDLY_TOKEN
  | OPPONENT_TOKEN
  | PROTECTED_OPPONENT
  | DISPLACED_OPPONENT
  | TOO_FAR
  | PATH_COMPLETE
  | MOVE_SUCCESSFULL
  deriving DecidableEq, Repr

/-- Turn stages of `GameManager` (`STAGE_ROLLING` / `STAGE_MOVING`);
`turn_stage` is `None` before the first game starts, hence `Option Stage`. -/
inductive Stage where
  | rolling
  | moving
  deriving DecidableEq, Repr

/-- `GameManager.TILE_NOTHING` -/
def TILE_NOTHING : Nat := 0
/-- `GameManager.TILE_NORMAL` -/
def TILE_NORMAL : Nat := 1
/-- `GameManager.TILE_ROSETTA` -/
def TILE_ROSETTA : Nat := 2
/-- `GameManager.TILE_GOAL` -/
def TILE_GOAL : Nat := 3

/-- The board tile-type array from `GameManager.__init__` (`self.board`). -/
def board : List Nat :=
  [2, 1, 2,
   1, 1, 1,
   1, 1, 1,
   1, 2, 1,
   0, 1, 0,
   3, 1, 3,
   2, 1, 2,
   1, 1, 1]

/-- The two players' paths (`self.paths`), in board tile indices. -/
def paths : List (List Nat) :=
  [[9, 6, 3, 0, 1, 4, 7, 10, 13, 16, 19, 22, 21, 18, 15],
   [11, 8, 5, 2, 1, 4, 7, 10, 13, 16, 19, 22, 23, 20, 17]]

/-- `self.players` -/
def players : Nat := 2
/-- `self.target_score` -/
def target_score : Nat := 7
/-- `self.token_count` -/
def token_count : Nat := 7

/-- Python list indexing `l[i]` with an `int` index: negative indices count
from the end, out-of-range raises (`none`). -/
def py_index (l : List Nat) (i : Int) : Option Nat :=
  let j : Int := if i < 0 then (l.length : Int) + i else i
  if j < 0 then none else l.get? j.toNat

/-- The game-relevant state of a `Token` object (`game_pieces.Token`).
Model position / Maya transform fields are presentation only and omitted. -/
structure Token where
  player : Nat
  token_id : Nat
  path : List Nat
  path_position : Int
  on_path : Bool
  finished : Bool
  deriving DecidableEq, Repr

/-- `Token.tile_location` with the default `offset=0`: the board tile index
this token currently occupies, or `none` when off the board. -/
def Token.tile_location (t : Token) : Option Nat :=
  if t.finished || !t.on_path then none
  else if t.path_position = -1 then none
  else py_index t.path t.path_position

/-- `Token.reset` (the token part: back home, off path, not finished). -/
def Token.reset (t : Token) : Token :=
  { t with path_position := -1, on_path := false, finished := false }

/-- The for-loop in `GameManager.get_position_collision`: first token in the
list whose `tile_location()` equals the queried tile index. -/
def find_collision : List Token → Nat → Option Token
  | [], _ => none
  | t :: ts, pos =>
    if t.tile_location == some pos then some t else find_collision ts pos

/-- `GameManager.get_position_collision`: `None` tile yields no collision. -/
def get_position_collision (tokens : List Token) (tile_position : Option Nat) :
    Option Token :=
  match tile_position with
  | none => none
  | some pos => find_collision tokens pos

/-- `collision.displace()` applied through the token list: the first token
located on the given tile is sent home (`on_path = False`,
`path_position = -1`); other tokens are untouched. -/
def displace_at : List Token → Nat → List Token
  | [], _ => []
  | t :: ts, pos =>
    if t.tile_location == some pos then
      ({ t with on_path := false, path_position := -1 }) :: ts
    else
      t :: displace_at ts pos

/-- `Token.check_move`: classify a move to `target_tile` against the board
and the current occupancy. Returns the message list (in append order) and the
colliding token, exactly as the source. `board[target_tile]` is total here via
`getD`; every call site passes a path entry, which is in range of the
24-entry board. -/
def Token.check_move (self : Token) (tokens : List Token) (target_tile : Nat) :
    List Msg × Option Token :=
  let collision := get_position_collision tokens (some target_tile)
  let tile_type := board.getD target_tile 0
  match collision with
  | some c =>
    if c.player = self.player then
      ([Msg.MOVE_BLOCKED, Msg.FRIENDLY_TOKEN], some c)
    else if tile_type = TILE_ROSETTA then
      ([Msg.OPPONENT_TOKEN, Msg.MOVE_BLOCKED, Msg.PROTECTED_OPPONENT], some c)
    else
      ([Msg.OPPONENT_TOKEN, Msg.MOVE_SUCCESSFULL, Msg.DISPLACED_OPPONENT], some c)
  | none =>
    if tile_type = TILE_ROSETTA then
      ([Msg.MOVE_SUCCESSFULL, Msg.FREE_TURN], none)
    else if tile_type = TILE_GOAL then
      ([Msg.MOVE_SUCCESSFULL, Msg.PATH_COMPLETE], none)
    else
      ([Msg.MOVE_SUCCESSFULL], none)

/-- `Token.can_move`: read-only feasibility check for moving this token by
`distance`. `if not distance` in Python is `distance = 0` for a die total. -/
def Token.can_move (self : Token) (tokens : List Token) (distance : Nat) : Bool :=
  if distance = 0 then false
  else
    let target_position := self.path_position + (distance : Int)
    if target_position < (self.path.length : Int) then
      match py_index self.path target_position with
      | none => false
      | some target_tile =>
        decide (Msg.MOVE_SUCCESSFULL ∈ (self.check_move tokens target_tile).1)
    else false

/-- The game-relevant state of `GameManager` plus its owned tokens. -/
structure GameState where
  tokens : List Token
  player_scores : List Nat
  player_turn : Nat
  turn_stage : Option Stage
  rolled_value : Option Nat
  running : Bool
  deriving DecidableEq, Repr

/-- `GameManager.win_game`: stop the game (`self.running = False`). -/
def win_game (st : GameState) (_player : Nat) : GameState :=
  { st with running := false }

/-- `GameManager.score_point`: increment the player's score, win when the
target score (7) is reached. -/
def score_point (st : GameState) (player : Nat) : GameState :=
  let new_scores := st.player_scores.set player (st.player_scores.getD player 0 + 1)
  let st1 := { st with player_scores := new_scores }
  if target_score ≤ new_scores.getD player 0 then win_game st1 player else st1

/-- `GameManager.start_turn`: enter the rolling stage for `player`. -/
def start_turn (st : GameState) (player : Nat) : GameState :=
  { st with turn_stage := some Stage.rolling, player_turn := player }

/-- `GameManager.end_turn`: start the next player's turn. -/
def end_turn (st : GameState) : GameState :=
  start_turn st ((st.player_turn + 1) % players)

/-- `GameManager.free_turn`: back to rolling for the same player. -/
def free_turn (st : GameState) : GameState :=
  { st with turn_stage := some Stage.rolling }

/-- `GameManager.roll_dice` with the dice total `v` supplied externally:
ignored unless running and in the rolling stage; otherwise records the roll
and switches to the moving stage. -/
def roll_dice (st : GameState) (v : Nat) : GameState :=
  if !st.running then st
  else if st.turn_stage ≠ some Stage.rolling then st
  else { st with rolled_value := some v, turn_stage := some Stage.moving }

/-- `Token.action` for the token at index `i` of the manager's token list,
with the synchronous signal chain inlined:
`move_unsuccessful -> piece_blocked` (messages only),
`point_scored -> score_point`, `move_successful -> piece_moved`
(which calls `end_turn` when `FREE_TURN` is absent).
Returns the new state together with the emitted message list
(`[]` when the selection is silently ignored). -/
def token_action (st : GameState) (i : Nat) : GameState × List Msg :=
  match st.tokens.get? i with
  | none => (st, [])
  | some self =>
    if st.player_turn ≠ self.player then (st, [])
    else if st.turn_stage ≠ some Stage.moving then (st, [])
    else
      let rolled_value := st.rolled_value.getD 0
      let target_position := self.path_position + (rolled_value : Int)
      if rolled_value = 0 then
        (st, [Msg.MOVE_BLOCKED, Msg.INVALID_MOVE])
      else if target_position < (self.path.length : Int) then
        match py_index self.path target_position with
        | none => (st, [])
        | some target_tile =>
          let mc := (self.check_move st.tokens target_tile).1
          if Msg.MOVE_BLOCKED ∈ mc then (st, mc)
          else
            let tokens1 := if Msg.DISPLACED_OPPONENT ∈ mc then
                displace_at st.tokens target_tile
              else st.tokens
            let self1 := if Msg.MOVE_SUCCESSFULL ∈ mc then
                { self with on_path := true, path_position := target_position }
              else self
            let self2 := if Msg.PATH_COMPLETE ∈ mc then
                { self1 with finished := true, on_path := false }
              else self1
            let st1 := { st with tokens := tokens1.set i self2 }
            let st2 := if Msg.PATH_COMPLETE ∈ mc then score_point st1 self.player
              else st1
            let st3 := if Msg.FREE_TURN ∈ mc then free_turn st2 else end_turn st2
            (st3, mc)
      else
        (st, [Msg.MOVE_BLOCKED, Msg.TOO_FAR])

/-- `GameManager._selection_made` restricted to token pieces: the callback is
dropped when the game is not running, otherwise it triggers the token's
action. -/
def select_token (st : GameState) (i : Nat) : GameState × List Msg :=
  if !st.running then (st, []) else token_action st i

/-- `GameManager.start_game`: reactivate, reset scores and roll, reset every
piece, then `start_turn(0)`. -/
def start_game (st : GameState) : GameState :=
  start_turn
    { st with running := true,
              player_scores := List.replicate players 0,
              rolled_value := none,
              tokens := st.tokens.map Token.reset }
    0

/-- The token list created by `GameManager.create_pieces`: for each player,
`token_count` tokens on the player's path, at home. -/
def initial_tokens : List Token :=
  (List.range players).flatMap fun p =>
    (List.range token_count).map fun i =>
      { player := p, token_id := i, path := paths.getD p [],
        path_position := -1, on_path := false, finished := false }

/-- The state after `GameManager.__init__` (before `start_game` runs):
not yet running, no stage, player 0, nothing rolled. -/
def initial_state : GameState :=
  { tokens := initial_tokens,
    player_scores := List.replicate players 0,
    player_turn := 0,
    turn_stage := none,
    rolled_value := none,
    running := false }

/-- One external stimulus processed by the engine: a dice roll with total
`v ≤ 4`, a selection of token `i`, the end-turn button, or a new game. -/
inductive Step : GameState → GameState → Prop where
  | roll (st : GameState) (v : Nat) (hv : v ≤ 4) : Step st (roll_dice st v)
  | select (st : GameState) (i : Nat) : Step st (select_token st i).1
  | endTurn (st : GameState) : Step st (end_turn st)
  | newGame (st : GameState) : Step st (start_game st)

/-- States reachable from the freshly constructed manager. -/
def Reachable (st : GameState) : Prop :=
  Relation.ReflTransGen Step initial_state st

/-- The (tile index, rosetta flag) pairs for which `GameManager.create_board`
creates a `BoardTile` object: only for tile types 1 and 2 (`if tile in [1, 2]`). -/
def created_board_tiles : List (Nat × Bool) :=
  (board.enum.filter fun it => it.2 == 1 || it.2 == 2).map fun it => (it.1, it.2 == 2)

/-! ## Concrete states used as witnesses -/

/-- A player-0 token sitting at path index 3 (board tile 0). -/
def tok_a : Token :=
  { player := 0, token_id := 0, path := paths.getD 0 [],
    path_position := 3, on_path := true, finished := false }

/-- A player-1 token sitting at path index 7 (board tile 10, a rosette). -/
def tok_b : Token :=
  { player := 1, token_id := 0, path := paths.getD 1 [],
    path_position := 7, on_path := true, finished := false }

/-- A player-0 token at path index 13, one real cell before the exit slot. -/
def tok_far : Token :=
  { player := 0, token_id := 1, path := paths.getD 0 [],
    path_position := 13, on_path := true, finished := false }

/-- Player 0 to move with a rolled 4; moving `tok_a` 4 ahead targets the
rosette tile 10 occupied by the opponent token `tok_b`. -/
def st_protected : GameState :=
  { tokens := [tok_a, tok_b], player_scores := [0, 0], player_turn := 0,
    turn_stage := some Stage.moving, rolled_value := some 4, running := true }

/-- Player 0 to move with a rolled 4 and only `tok_far` on the board:
the target path index 17 overshoots the 15-slot path. -/
def st_far : GameState :=
  { tokens := [tok_far], player_scores := [0, 0], player_turn := 0,
    turn_stage := some Stage.moving, rolled_value := some 4, running := true }

/-- Player 0 to move after rolling a total of 0. -/
def st_zero : GameState :=
  { tokens := [tok_a], player_scores := [0, 0], player_turn := 0,
    turn_stage := some Stage.moving, rolled_value := some 0, running := true }

/-- A player-1 token sitting at path index 6 (board tile 7, a normal cell). -/
def tok_c : Token :=
  { player := 1, token_id := 1, path := paths.getD 1 [],
    path_position := 6, on_path := true, finished := false }

/-- Player 0 to move with a rolled 3; moving `tok_a` 3 ahead targets the
plain tile 7 occupied by the opponent token `tok_c`. -/
def st_displace : GameState :=
  { tokens := [tok_a, tok_c], player_scores := [0, 0], player_turn := 0,
    turn_stage := some Stage.moving, rolled_value := some 3, running := true }

/-! ## Helper lemmas about displacement -/

theorem displace_at_length (ts : List Token) (pos : Nat) :
    (displace_at ts pos).length = ts.length := by
  induction ts with
  | nil => rfl
  | cons t ts ih =>
    unfold displace_at
    split <;> simp [ih]

/-- When the collision scan finds a token, displacement sends exactly that
token home and leaves every other list entry untouched. -/
theorem find_collision_spec {ts : List Token} {pos : Nat} {c : Token}
    (h : find_collision ts pos = some c) :
    ∃ j : Nat, ts[j]? = some c ∧ c.tile_location = some pos ∧
      (displace_at ts pos)[j]? =
        some { c with on_path := false, path_position := -1 } ∧
      ∀ k : Nat, k ≠ j → (displace_at ts pos)[k]? = ts[k]? := by
  induction ts with
  | nil => simp [find_collision] at h
  | cons t ts ih =>
    by_cases ht : t.tile_location = some pos
    · have hc : c = t := by
        unfold find_collision at h
        simp [ht] at h
        exact h.symm
      subst hc
      refine ⟨0, by simp, ht, ?_, ?_⟩
      · unfold displace_at
        simp [ht]
      · intro k hk
        unfold displace_at
        simp [ht]
        cases k with
        | zero => exact absurd rfl hk
        | succ k => simp
    · unfold find_collision at h
      simp [ht] at h
      obtain ⟨j, h1, h2, h3, h4⟩ := ih h
      refine ⟨j + 1, by simpa using h1, h2, ?_, ?_⟩
      · unfold displace_at
        simp only [ht, beq_iff_eq, if_false, if_neg]
        simpa using h3
      · intro k hk
        unfold displace_at
        simp only [ht, beq_iff_eq, if_false, if_neg]
        cases k with
        | zero => simp
        | succ k => simpa using h4 k (by omega)

/-! ## Claim theorems -/

/-- C1 (counterexample): contrary to the claim, the `TILE_GOAL` cell type (3)
is placed on the board array, at indices 15 and 17. -/
theorem goal_tile_placed_counterexample :
    TILE_GOAL ∈ board ∧ board.getD 15 0 = TILE_GOAL ∧ board.getD 17 0 = TILE_GOAL := by
  decide

/-- C1 (amended): `TILE_GOAL` appears on the board array exactly at indices 15
and 17; those are exactly the final entries (index 14) of the two players'
paths, so along either path the target cell has goal type iff the token has
reached the last path index; `create_board` places no `BoardTile` object on a
goal cell; and `check_move` flags `PATH_COMPLETE` exactly when the unoccupied
target cell has type `TILE_GOAL` — completion is decided by the board-cell
type, which coincides with the path-length condition. -/
theorem goal_tiles_drive_path_complete :
    (∀ i < board.length, (board.getD i 0 = TILE_GOAL ↔ i = 15 ∨ i = 17)) ∧
    (∀ p < players, (paths.getD p []).getD 14 0 = if p = 0 then 15 else 17) ∧
    (∀ p < players, ∀ k < (paths.getD p []).length,
      (board.getD ((paths.getD p []).getD k 0) 0 = TILE_GOAL ↔ k = 14)) ∧
    (∀ it ∈ created_board_tiles, board.getD it.1 0 ≠ TILE_GOAL) ∧
    (∀ (self : Token) (tokens : List Token) (tile : Nat),
      Msg.PATH_COMPLETE ∈ (self.check_move tokens tile).1 ↔
        find_collision tokens tile = none ∧ board.getD tile 0 = TILE_GOAL) := by
  refine ⟨by decide, by decide, by decide, by decide, ?_⟩
  intro self tokens tile
  unfold Token.check_move get_position_collision
  rcases hcol : find_collision tokens tile with _ | c
  · simp only [hcol]
    split_ifs with h1 h2 <;> simp_all [TILE_ROSETTA, TILE_GOAL]
  · simp only [hcol]
    split_ifs <;> simp

/-- C1 (witness for the amended theorem): instantiated at player 0, path
index 14, and at a lone token checking the goal tile 15. -/
theorem goal_tiles_drive_path_complete_witness :
    (board.getD ((paths.getD 0 []).getD 14 0) 0 = TILE_GOAL ↔ (14 : Nat) = 14) ∧
    (Msg.PATH_COMPLETE ∈ (Token.check_move ⟨0, 0, [], 0, false, false⟩ [] 15).1 ↔
      find_collision [] 15 = none ∧ board.getD 15 0 = TILE_GOAL) :=
  ⟨goal_tiles_drive_path_complete.2.2.1 0 (by decide) 14 (by decide),
   goal_tiles_drive_path_complete.2.2.2.2 ⟨0, 0, [], 0, false, false⟩ [] 15⟩

/-- C2: when the target cell holds an opponent token and is a rosette, the
resolution is blocked as `PROTECTED_OPPONENT` (for any rolled distance `d`)
and the whole state — in particular the mover's `path_position` — is
unchanged. -/
theorem rosette_occupant_protected (st : GameState) (i : Nat) (self c : Token)
    (d : Nat) (target_tile : Nat)
    (hi : st.tokens.get? i = some self)
    (hturn : st.player_turn = self.player)
    (hstage : st.turn_stage = some Stage.moving)
    (hroll : st.rolled_value = some d) (hd : d ≠ 0)
    (hlt : self.path_position + (d : Int) < (self.path.length : Int))
    (htile : py_index self.path (self.path_position + (d : Int)) = some target_tile)
    (hcol : find_collision st.tokens target_tile = some c)
    (hopp : c.player ≠ self.player)
    (hros : board.getD target_tile 0 = TILE_ROSETTA) :
    token_action st i =
      (st, [Msg.OPPONENT_TOKEN, Msg.MOVE_BLOCKED, Msg.PROTECTED_OPPONENT]) := by
  rw [List.get?_eq_getElem?] at hi
  rw [List.getD_eq_getElem?_getD] at hros
  simp [token_action, hi, hturn, hstage, hroll, hd, hlt, htile,
        Token.check_move, get_position_collision, hcol, hopp, hros]

/-- C2 (witness): `tok_a` moving 4 onto rosette tile 10 occupied by `tok_b`. -/
theorem rosette_occupant_protected_witness :
    token_action st_protected 0 =
      (st_protected, [Msg.OPPONENT_TOKEN, Msg.MOVE_BLOCKED, Msg.PROTECTED_OPPONENT]) :=
  rosette_occupant_protected st_protected 0 tok_a tok_b 4 10
    (by decide) (by decide) (by decide) (by decide) (by decide)
    (by decide) (by decide) (by decide) (by decide) (by decide)

/-- C3: when the target cell is a non-rosette cell occupied by an opponent
token, the move succeeds as `DISPLACED_OPPONENT`: the occupant is sent home
(`path_position = -1`, off path), the mover advances to the target path
index, and the opponent gets no compensating turn — the turn simply passes
to the next player with the scores untouched. -/
theorem displacement_sends_opponent_home (st : GameState) (i : Nat)
    (self c : Token) (d : Nat) (target_tile : Nat)
    (hi : st.tokens.get? i = some self)
    (hturn : st.player_turn = self.player)
    (hstage : st.turn_stage = some Stage.moving)
    (hroll : st.rolled_value = some d) (hd : d ≠ 0)
    (hlt : self.path_position + (d : Int) < (self.path.length : Int))
    (htile : py_index self.path (self.path_position + (d : Int)) = some target_tile)
    (hcol : find_collision st.tokens target_tile = some c)
    (hopp : c.player ≠ self.player)
    (hros : board.getD target_tile 0 ≠ TILE_ROSETTA) :
    (token_action st i).2 =
      [Msg.OPPONENT_TOKEN, Msg.MOVE_SUCCESSFULL, Msg.DISPLACED_OPPONENT] ∧
    (token_action st i).1.tokens.get? i =
      some { self with on_path := true,
                       path_position := self.path_position + (d : Int) } ∧
    (∃ j, j ≠ i ∧ st.tokens.get? j = some c ∧
      (token_action st i).1.tokens.get? j =
        some { c with on_path := false, path_position := -1 }) ∧
    (token_action st i).1.player_turn = (st.player_turn + 1) % players ∧
    (token_action st i).1.turn_stage = some Stage.rolling ∧
    (token_action st i).1.player_scores = st.player_scores := by
  have hilen : i < st.tokens.length := by
    rw [List.get?_eq_some] at hi
    exact hi.1
  have hi' := hi
  rw [List.get?_eq_getElem?] at hi'
  have hros' : ¬ (board[target_tile]?.getD 0 = TILE_ROSETTA) := by
    rw [List.getD_eq_getElem?_getD] at hros
    exact hros
  have heq : token_action st i =
      ({ st with
          tokens := (displace_at st.tokens target_tile).set i
            { self with on_path := true,
                        path_position := self.path_position + (d : Int) },
          turn_stage := some Stage.rolling,
          player_turn := (st.player_turn + 1) % players },
       [Msg.OPPONENT_TOKEN, Msg.MOVE_SUCCESSFULL, Msg.DISPLACED_OPPONENT]) := by
    simp [token_action, hi', hturn, hstage, hroll, hd, hlt, htile,
          Token.check_move, get_position_collision, hcol, hopp, hros',
          end_turn, start_turn]
  obtain ⟨j, hj1, hj2, hj3, hj4⟩ := find_collision_spec hcol
  have hji : j ≠ i := by
    rintro rfl
    rw [List.get?_eq_getElem?] at hi
    rw [hi] at hj1
    exact hopp (by cases hj1; rfl)
  refine ⟨by rw [heq], ?_, ⟨j, hji, by rw [List.get?_eq_getElem?]; exact hj1, ?_⟩,
    by rw [heq], by rw [heq], by rw [heq]⟩
  · rw [heq, List.get?_eq_getElem?]
    exact List.getElem?_set_self (by rw [displace_at_length]; exact hilen)
  · rw [heq, List.get?_eq_getElem?]
    rw [List.getElem?_set_ne (by omega)]
    exact hj3

/-- C3 (witness): `tok_a` moving 3 onto the plain tile 7 occupied by the
opponent token `tok_c`. -/
theorem displacement_sends_opponent_home_witness :
    (token_action st_displace 0).2 =
      [Msg.OPPONENT_TOKEN, Msg.MOVE_SUCCESSFULL, Msg.DISPLACED_OPPONENT] ∧
    (token_action st_displace 0).1.tokens.get? 0 =
      some { tok_a with on_path := true,
                        path_position := tok_a.path_position + (3 : Int) } ∧
    (∃ j, j ≠ 0 ∧ st_displace.tokens.get? j = some tok_c ∧
      (token_action st_displace 0).1.tokens.get? j =
        some { tok_c with on_path := false, path_position := -1 }) ∧
    (token_action st_displace 0).1.player_turn = (st_displace.player_turn + 1) % players ∧
    (token_action st_displace 0).1.turn_stage = some Stage.rolling ∧
    (token_action st_displace 0).1.player_scores = st_displace.player_scores :=
  displacement_sends_opponent_home st_displace 0 tok_a tok_c 3 7
    (by decide) (by decide) (by decide) (by decide) (by decide)
    (by decide) (by decide) (by decide) (by decide) (by decide)

/-- C4: when the target path index reaches past the final path slot
(`path_position + distance ≥ path length`), the move is blocked as `TOO_FAR`
and the state — in particular the token's `path_position` — is unchanged. -/
theorem overshoot_too_far (st : GameState) (i : Nat) (self : Token) (d : Nat)
    (hi : st.tokens.get? i = some self)
    (hturn : st.player_turn = self.player)
    (hstage : st.turn_stage = some Stage.moving)
    (hroll : st.rolled_value = some d)
    (hpp : self.path_position < (self.path.length : Int))
    (hover : (self.path.length : Int) ≤ self.path_position + (d : Int)) :
    token_action st i = (st, [Msg.MOVE_BLOCKED, Msg.TOO_FAR]) := by
  rw [List.get?_eq_getElem?] at hi
  have hd : d ≠ 0 := by
    rintro rfl
    simp at hover
    omega
  simp [token_action, hi, hturn, hstage, hroll, hd, not_lt.mpr hover]

/-- C4 (witness): a token at path index 13 with a rolled distance of 4
(target 17 ≥ 15) is refused with `TOO_FAR` and nothing changes. -/
theorem overshoot_too_far_witness :
    token_action st_far 0 = (st_far, [Msg.MOVE_BLOCKED, Msg.TOO_FAR]) :=
  overshoot_too_far st_far 0 tok_far 4
    (by decide) (by decide) (by decide) (by decide) (by decide) (by decide)

/-- C9: when the rolled distance is 0 and one of the active player's tokens
is selected in the moving stage, the move is refused with
`MOVE_BLOCKED`/`INVALID_MOVE` and the state is completely unchanged. -/
theorem rolled_zero_invalid_move (st : GameState) (i : Nat) (self : Token)
    (hi : st.tokens.get? i = some self)
    (hturn : st.player_turn = self.player)
    (hstage : st.turn_stage = some Stage.moving)
    (hroll : st.rolled_value = some 0) :
    token_action st i = (st, [Msg.MOVE_BLOCKED, Msg.INVALID_MOVE]) := by
  rw [List.get?_eq_getElem?] at hi
  simp [token_action, hi, hturn, hstage, hroll]

/-- C9 (witness): selecting `tok_a` after rolling 0. -/
theorem rolled_zero_invalid_move_witness :
    token_action st_zero 0 = (st_zero, [Msg.MOVE_BLOCKED, Msg.INVALID_MOVE]) :=
  rolled_zero_invalid_move st_zero 0 tok_a
    (by decide) (by decide) (by decide) (by decide)

/-- C10: selecting a token that does not belong to the active player, or
selecting a token while the stage is not `moving`, is silently ignored: the
state is unchanged and no message is emitted. -/
theorem wrong_player_or_stage_ignored (st : GameState) (i : Nat) (self : Token)
    (hi : st.tokens.get? i = some self)
    (h : st.player_turn ≠ self.player ∨ st.turn_stage ≠ some Stage.moving) :
    token_action st i = (st, []) := by
  rw [List.get?_eq_getElem?] at hi
  rcases h with h | h
  · simp [token_action, hi, h]
  · simp [token_action, hi, h]

/-- C10 (witness): selecting opponent token `tok_b` during player 0's turn. -/
theorem wrong_player_or_stage_ignored_witness :
    token_action st_protected 1 = (st_protected, []) :=
  wrong_player_or_stage_ignored st_protected 1 tok_b (by decide)
    (Or.inl (by decide))

theorem score_point_frame (st : GameState) (p : Nat) :
    (score_point st p).tokens = st.tokens ∧
    (score_point st p).player_turn = st.player_turn ∧
    (score_point st p).turn_stage = st.turn_stage ∧
    (score_point st p).player_scores =
      st.player_scores.set p (st.player_scores.getD p 0 + 1) := by
  simp only [score_point, win_game]
  split <;> exact ⟨rfl, rfl, rfl, rfl⟩

theorem check_move_blocked_iff (self : Token) (tokens : List Token) (tile : Nat) :
    Msg.MOVE_BLOCKED ∈ (self.check_move tokens tile).1 ↔
    Msg.MOVE_SUCCESSFULL ∉ (self.check_move tokens tile).1 := by
  unfold Token.check_move get_position_collision
  rcases hcol : find_collision tokens tile with _ | c <;>
    simp only [hcol] <;> split_ifs <;> simp

theorem check_move_blocked_no_path_complete (self : Token) (tokens : List Token)
    (tile : Nat) (h : Msg.MOVE_BLOCKED ∈ (self.check_move tokens tile).1) :
    Msg.PATH_COMPLETE ∉ (self.check_move tokens tile).1 := by
  unfold Token.check_move get_position_collision at h ⊢
  rcases hcol : find_collision tokens tile with _ | c <;>
    simp only [hcol] at h ⊢ <;> split_ifs at h ⊢ <;> simp_all

theorem free_turn_tokens (st : GameState) : (free_turn st).tokens = st.tokens := rfl

theorem end_turn_tokens (st : GameState) : (end_turn st).tokens = st.tokens := rfl

theorem score_point_tokens (st : GameState) (p : Nat) :
    (score_point st p).tokens = st.tokens := (score_point_frame st p).1

theorem token_action_outcome (st : GameState) (i : Nat) :
    ((token_action st i).1 = st ∧ Msg.MOVE_SUCCESSFULL ∉ (token_action st i).2 ∧
      Msg.PATH_COMPLETE ∉ (token_action st i).2) ∨
    (∃ (self : Token) (target_tile : Nat) (tokens2 : List Token),
      st.tokens[i]? = some self ∧
      (token_action st i).2 = (self.check_move st.tokens target_tile).1 ∧
      Msg.MOVE_BLOCKED ∉ (self.check_move st.tokens target_tile).1 ∧
      (token_action st i).1 =
        (if Msg.FREE_TURN ∈ (self.check_move st.tokens target_tile).1 then
          free_turn
            (if Msg.PATH_COMPLETE ∈ (self.check_move st.tokens target_tile).1 then
              score_point { st with tokens := tokens2 } self.player
            else { st with tokens := tokens2 })
        else
          end_turn
            (if Msg.PATH_COMPLETE ∈ (self.check_move st.tokens target_tile).1 then
              score_point { st with tokens := tokens2 } self.player
            else { st with tokens := tokens2 }))) := by
  cases hi : st.tokens[i]? with
  | none => left; refine ⟨?_, ?_, ?_⟩ <;> simp [token_action, hi]
  | some self =>
    by_cases hturn : st.player_turn = self.player
    case neg => left; refine ⟨?_, ?_, ?_⟩ <;> simp [token_action, hi, hturn]
    by_cases hstage : st.turn_stage = some Stage.moving
    case neg => left; refine ⟨?_, ?_, ?_⟩ <;> simp [token_action, hi, hstage]
    by_cases hd : st.rolled_value.getD 0 = 0
    case pos => left; refine ⟨?_, ?_, ?_⟩ <;> simp [token_action, hi, hturn, hstage, hd]
    by_cases hlt : self.path_position + ((st.rolled_value.getD 0 : Nat) : Int) <
        (self.path.length : Int)
    case neg => left; refine ⟨?_, ?_, ?_⟩ <;> simp [token_action, hi, hturn, hstage, hd, hlt]
    cases htile : py_index self.path
        (self.path_position + ((st.rolled_value.getD 0 : Nat) : Int)) with
    | none => left; refine ⟨?_, ?_, ?_⟩ <;> simp [token_action, hi, hturn, hstage, hd, hlt, htile]
    | some target_tile =>
      by_cases hb : Msg.MOVE_BLOCKED ∈ (self.check_move st.tokens target_tile).1
      case pos =>
        left
        refine ⟨?_, ?_, ?_⟩
        · simp [token_action, hi, hturn, hstage, hd, hlt, htile, hb]
        · simp [token_action, hi, hturn, hstage, hd, hlt, htile, hb,
                (check_move_blocked_iff self st.tokens target_tile).mp hb]
        · simp [token_action, hi, hturn, hstage, hd, hlt, htile, hb,
                check_move_blocked_no_path_complete self st.tokens target_tile hb]
      case neg =>
        right
        refine ⟨self, target_tile, (token_action st i).1.tokens, rfl, ?_, hb, ?_⟩
        · simp [token_action, hi, hturn, hstage, hd, hlt, htile, hb]
        · by_cases hft : Msg.FREE_TURN ∈ (self.check_move st.tokens target_tile).1 <;>
            by_cases hpc : Msg.PATH_COMPLETE ∈ (self.check_move st.tokens target_tile).1 <;>
            simp [token_action, hi, hturn, hstage, hd, hlt, htile, hb, hft, hpc,
                  free_turn_tokens, end_turn_tokens, score_point_tokens]

theorem free_turn_fields (st : GameState) :
    (free_turn st).turn_stage = some Stage.rolling ∧
    (free_turn st).player_turn = st.player_turn ∧
    (free_turn st).player_scores = st.player_scores ∧
    (free_turn st).running = st.running :=
  ⟨rfl, rfl, rfl, rfl⟩

theorem end_turn_fields (st : GameState) :
    (end_turn st).turn_stage = some Stage.rolling ∧
    (end_turn st).player_turn = (st.player_turn + 1) % players ∧
    (end_turn st).player_scores = st.player_scores ∧
    (end_turn st).running = st.running :=
  ⟨rfl, rfl, rfl, rfl⟩

theorem score_point_running (st : GameState) (p : Nat) :
    (score_point st p).running =
      if target_score ≤
          (st.player_scores.set p (st.player_scores.getD p 0 + 1)).getD p 0
      then false else st.running := by
  simp only [score_point, win_game]
  split <;> simp_all

theorem getD_set_self (l : List Nat) (p v : Nat) (hp : p < l.length) :
    (l.set p v).getD p 0 = v := by
  rw [List.getD_eq_getElem?_getD, List.getElem?_set_self hp]
  rfl

/-- C5: after a successfully applied move, the stage is back to rolling; the
player is unchanged when `FREE_TURN` was flagged (unoccupied rosette) and
passes to the other player (`(player_turn + 1) % 2`) otherwise. -/
theorem success_applies_free_or_end (st : GameState) (i : Nat) (st' : GameState)
    (mc : List Msg)
    (h : token_action st i = (st', mc)) (hs : Msg.MOVE_SUCCESSFULL ∈ mc) :
    st'.turn_stage = some Stage.rolling ∧
    (if Msg.FREE_TURN ∈ mc then st'.player_turn = st.player_turn
     else st'.player_turn = (st.player_turn + 1) % players) := by
  rcases token_action_outcome st i with ⟨h1, h2, h3⟩ | ⟨self, tile, tokens2, hi, h2, h3, h4⟩
  · rw [h] at h2
    exact absurd hs h2
  · rw [h] at h2 h4
    simp only at h2 h4
    subst h2
    rw [h4]
    by_cases hft : Msg.FREE_TURN ∈ (self.check_move st.tokens tile).1 <;>
      by_cases hpc : Msg.PATH_COMPLETE ∈ (self.check_move st.tokens tile).1 <;>
      simp [hft, hpc, free_turn_fields, end_turn_fields,
            (score_point_frame _ _).2.1, (score_point_frame _ _).2.2.1]

/-- C8: a resolution flagging `PATH_COMPLETE` increments the scoring player's
score by exactly 1; whenever the resulting score reaches `target_score` (7)
the game stops running; and in any non-running state every dice roll and
token selection is rejected unchanged until `start_game` sets `running` back
to true. -/
theorem path_complete_scores_and_win (st : GameState) (i : Nat) (self : Token)
    (st' : GameState) (mc : List Msg)
    (hi : st.tokens.get? i = some self)
    (h : token_action st i = (st', mc))
    (hpc : Msg.PATH_COMPLETE ∈ mc)
    (hp : self.player < st.player_scores.length) :
    st'.player_scores.getD self.player 0 = st.player_scores.getD self.player 0 + 1 ∧
    (target_score ≤ st'.player_scores.getD self.player 0 → st'.running = false) ∧
    (∀ s : GameState, s.running = false →
      (∀ v : Nat, roll_dice s v = s) ∧ (∀ j : Nat, select_token s j = (s, [])) ∧
      (start_game s).running = true) := by
  have hrest : ∀ s : GameState, s.running = false →
      (∀ v : Nat, roll_dice s v = s) ∧ (∀ j : Nat, select_token s j = (s, [])) ∧
      (start_game s).running = true := by
    intro s hs
    refine ⟨fun v => ?_, fun j => ?_, rfl⟩
    · simp [roll_dice, hs]
    · simp [select_token, hs]
  rcases token_action_outcome st i with ⟨h1, h2, h3⟩ | ⟨self', tile, tokens2, hi', h2, h3, h4⟩
  · rw [h] at h3
    exact absurd hpc h3
  · rw [List.get?_eq_getElem?] at hi
    rw [hi] at hi'
    cases hi'
    rw [h] at h2 h4
    simp only at h2 h4
    subst h2
    have hscores : st'.player_scores =
        st.player_scores.set self.player (st.player_scores.getD self.player 0 + 1) := by
      rw [h4]
      by_cases hft : Msg.FREE_TURN ∈ (self.check_move st.tokens tile).1 <;>
        simp [hft, hpc, free_turn_fields, end_turn_fields, (score_point_frame _ _).2.2.2]
    have hrun : st'.running =
        if target_score ≤ st'.player_scores.getD self.player 0 then false
        else st.running := by
      rw [hscores, h4]
      by_cases hft : Msg.FREE_TURN ∈ (self.check_move st.tokens tile).1 <;>
        simp [hft, hpc, (free_turn_fields _).2.2.2, (end_turn_fields _).2.2.2,
              score_point_running]
    refine ⟨?_, ?_, hrest⟩
    · rw [hscores, getD_set_self _ _ _ hp]
    · intro hts
      rw [hrun, if_pos hts]

def st_free : GameState :=
  { tokens := [tok_a], player_scores := [0, 0], player_turn := 0,
    turn_stage := some Stage.moving, rolled_value := some 4, running := true }

def st_goal : GameState :=
  { tokens := [tok_far], player_scores := [6, 0], player_turn := 0,
    turn_stage := some Stage.moving, rolled_value := some 1, running := true }

/-- C5 (witness): `tok_a` landing on the unoccupied rosette tile 10. -/
theorem success_applies_free_or_end_witness :
    (token_action st_free 0).1.turn_stage = some Stage.rolling ∧
    (if Msg.FREE_TURN ∈ (token_action st_free 0).2 then
      (token_action st_free 0).1.player_turn = st_free.player_turn
     else (token_action st_free 0).1.player_turn = (st_free.player_turn + 1) % players) :=
  success_applies_free_or_end st_free 0 (token_action st_free 0).1
    (token_action st_free 0).2 rfl (by decide)

/-- C8 (witness): `tok_far` moving 1 onto the goal tile 15 with the score
at 6, reaching the target score and stopping the game. -/
theorem path_complete_scores_and_win_witness :
    (token_action st_goal 0).1.player_scores.getD 0 0 =
      st_goal.player_scores.getD 0 0 + 1 ∧
    (target_score ≤ (token_action st_goal 0).1.player_scores.getD 0 0 →
      (token_action st_goal 0).1.running = false) ∧
    (∀ s : GameState, s.running = false →
      (∀ v : Nat, roll_dice s v = s) ∧ (∀ j : Nat, select_token s j = (s, [])) ∧
      (start_game s).running = true) :=
  path_complete_scores_and_win st_goal 0 tok_far (token_action st_goal 0).1
    (token_action st_goal 0).2 (by decide) rfl (by decide) (by decide)

/-- C6: `can_move` (a pure function, like the fragment it embeds) returns
true exactly when resolving the same move through `Token.action` emits a
`MOVE_SUCCESSFULL` outcome; in particular it is false for a rolled 0 and for
an overshooting target. -/
theorem can_move_iff_success (st : GameState) (i : Nat) (self : Token) (d : Nat)
    (hi : st.tokens.get? i = some self)
    (hturn : st.player_turn = self.player)
    (hstage : st.turn_stage = some Stage.moving)
    (hroll : st.rolled_value = some d) :
    self.can_move st.tokens d = true ↔
      Msg.MOVE_SUCCESSFULL ∈ (token_action st i).2 := by
  rw [List.get?_eq_getElem?] at hi
  by_cases hd : d = 0
  · subst hd
    simp [Token.can_move, token_action, hi, hturn, hstage, hroll]
  · by_cases hlt : self.path_position + (d : Int) < (self.path.length : Int)
    · cases htile : py_index self.path (self.path_position + (d : Int)) with
      | none =>
        simp [Token.can_move, token_action, hi, hturn, hstage, hroll, hd, hlt, htile]
      | some tile =>
        by_cases hb : Msg.MOVE_BLOCKED ∈ (self.check_move st.tokens tile).1 <;>
          simp [Token.can_move, token_action, hi, hturn, hstage, hroll, hd, hlt, htile, hb,
                check_move_blocked_iff]
    · simp [Token.can_move, token_action, hi, hturn, hstage, hroll, hd, hlt]

/-- C6 (witness): instantiated at a feasible move (`tok_a` by 4 onto the free
rosette) and at a rolled 0. -/
theorem can_move_iff_success_witness :
    (tok_a.can_move st_free.tokens 4 = true ↔
      Msg.MOVE_SUCCESSFULL ∈ (token_action st_free 0).2) ∧
    (tok_a.can_move st_zero.tokens 0 = true ↔
      Msg.MOVE_SUCCESSFULL ∈ (token_action st_zero 0).2) :=
  ⟨can_move_iff_success st_free 0 tok_a 4 (by decide) (by decide) (by decide) (by decide),
   can_move_iff_success st_zero 0 tok_a 0 (by decide) (by decide) (by decide) (by decide)⟩


/-- At most one token of the list occupies any given board tile. -/
def NoSharedTiles (tokens : List Token) : Prop :=
  ∀ (j k : Nat) (tj tk : Token) (pos : Nat), j ≠ k →
    tokens[j]? = some tj → tokens[k]? = some tk →
    tj.tile_location = some pos → tk.tile_location = some pos → False

theorem no_shared_tiles_cons {t : Token} {ts : List Token}
    (h : NoSharedTiles (t :: ts)) : NoSharedTiles ts := by
  intro j k tj tk pos hjk hj hk htj htk
  exact h (j + 1) (k + 1) tj tk pos (by omega) (by simpa using hj)
    (by simpa using hk) htj htk

theorem find_collision_none {ts : List Token} {pos : Nat}
    (h : find_collision ts pos = none) :
    ∀ (k : Nat) (t : Token), ts[k]? = some t → t.tile_location ≠ some pos := by
  induction ts with
  | nil => intro k t hk; simp at hk
  | cons u ts ih =>
    intro k t hk
    unfold find_collision at h
    by_cases hu : u.tile_location = some pos
    · simp [hu] at h
    · rw [if_neg (by simpa using hu)] at h
      cases k with
      | zero =>
        simp at hk
        subst hk
        exact hu
      | succ k =>
        simp at hk h
        exact ih h k t hk

theorem displace_at_clears {ts : List Token} {pos : Nat}
    (h : NoSharedTiles ts) :
    ∀ (k : Nat) (t : Token), (displace_at ts pos)[k]? = some t →
      t.tile_location ≠ some pos := by
  induction ts with
  | nil => intro k t hk; simp [displace_at] at hk
  | cons u ts ih =>
    intro k t hk
    unfold displace_at at hk
    by_cases hu : u.tile_location = some pos
    · rw [if_pos (by simpa using hu)] at hk
      cases k with
      | zero =>
        simp at hk
        subst hk
        simp [Token.tile_location]
      | succ k =>
        simp at hk
        intro ht
        exact h 0 (k + 1) u t pos (by omega) (by simp) (by simpa using hk) hu ht
    · rw [if_neg (by simpa using hu)] at hk
      cases k with
      | zero =>
        simp at hk
        subst hk
        exact hu
      | succ k =>
        simp at hk
        exact ih (no_shared_tiles_cons h) k t hk

theorem displace_at_entry (ts : List Token) (pos : Nat) (k : Nat) :
    (displace_at ts pos)[k]? = ts[k]? ∨
    ∃ t, ts[k]? = some t ∧
      (displace_at ts pos)[k]? =
        some { t with on_path := false, path_position := -1 } := by
  induction ts generalizing k with
  | nil => left; simp [displace_at]
  | cons u ts ih =>
    unfold displace_at
    by_cases hu : u.tile_location = some pos
    · rw [if_pos (by simpa using hu)]
      cases k with
      | zero => right; exact ⟨u, by simp, by simp⟩
      | succ k => left; simp
    · rw [if_neg (by simpa using hu)]
      cases k with
      | zero => left; simp
      | succ k => simpa using ih k

theorem no_shared_displace {ts : List Token} {pos : Nat}
    (h : NoSharedTiles ts) : NoSharedTiles (displace_at ts pos) := by
  intro j k tj tk p hjk hj hk htj htk
  rcases displace_at_entry ts pos j with hj' | ⟨t, ht, ht'⟩
  · rcases displace_at_entry ts pos k with hk' | ⟨u, hu, hu'⟩
    · exact h j k tj tk p hjk (hj' ▸ hj) (hk' ▸ hk) htj htk
    · rw [hk] at hu'
      cases hu'
      simp [Token.tile_location] at htk
  · rw [hj] at ht'
    cases ht'
    simp [Token.tile_location] at htj

theorem no_shared_set (tokens1 : List Token) (i : Nat) (self2 : Token) (pos : Nat)
    (h1 : NoSharedTiles tokens1)
    (hself : self2.tile_location = none ∨ self2.tile_location = some pos)
    (hclear : ∀ (k : Nat) (t : Token), tokens1[k]? = some t →
      t.tile_location ≠ some pos) :
    NoSharedTiles (tokens1.set i self2) := by
  intro j k tj tk p hjk hj hk htj htk
  rw [List.getElem?_set] at hj hk
  by_cases hij : i = j
  · rw [if_pos hij] at hj
    split at hj
    · cases hj
      rcases hself with hn | hs
      · rw [hn] at htj; cases htj
      · rw [hs] at htj
        cases htj
        rw [if_neg (by omega)] at hk
        exact hclear k tk hk htk
    · cases hj
  · rw [if_neg hij] at hj
    by_cases hik : i = k
    · rw [if_pos hik] at hk
      split at hk
      · cases hk
        rcases hself with hn | hs
        · rw [hn] at htk; cases htk
        · rw [hs] at htk
          cases htk
          exact hclear j tj hj htj
      · cases hk
    · rw [if_neg hik] at hk
      exact h1 j k tj tk p hjk hj hk htj htk

theorem check_move_no_collision (self : Token) (tokens : List Token) (tile : Nat)
    (hb : Msg.MOVE_BLOCKED ∉ (self.check_move tokens tile).1)
    (hd : Msg.DISPLACED_OPPONENT ∉ (self.check_move tokens tile).1) :
    find_collision tokens tile = none := by
  rcases hcol : find_collision tokens tile with _ | c
  · rfl
  · unfold Token.check_move get_position_collision at hb hd
    simp only [hcol] at hb hd
    split_ifs at hb hd <;> simp_all
theorem token_action_tokens_shape (st : GameState) (i : Nat) :
    (token_action st i).1.tokens = st.tokens ∨
    ∃ (self self2 : Token) (target_tile : Nat),
      st.tokens[i]? = some self ∧
      Msg.MOVE_BLOCKED ∉ (self.check_move st.tokens target_tile).1 ∧
      (self2.tile_location = none ∨ self2.tile_location = some target_tile) ∧
      (token_action st i).1.tokens =
        (if Msg.DISPLACED_OPPONENT ∈ (self.check_move st.tokens target_tile).1 then
            displace_at st.tokens target_tile
          else st.tokens).set i self2 := by
  cases hi : st.tokens[i]? with
  | none => left; simp [token_action, hi]
  | some self =>
    by_cases hturn : st.player_turn = self.player
    case neg => left; simp [token_action, hi, hturn]
    by_cases hstage : st.turn_stage = some Stage.moving
    case neg => left; simp [token_action, hi, hstage]
    by_cases hd : st.rolled_value.getD 0 = 0
    case pos => left; simp [token_action, hi, hturn, hstage, hd]
    by_cases hlt : self.path_position + ((st.rolled_value.getD 0 : Nat) : Int) <
        (self.path.length : Int)
    case neg => left; simp [token_action, hi, hturn, hstage, hd, hlt]
    cases htile : py_index self.path
        (self.path_position + ((st.rolled_value.getD 0 : Nat) : Int)) with
    | none => left; simp [token_action, hi, hturn, hstage, hd, hlt, htile]
    | some target_tile =>
      by_cases hb : Msg.MOVE_BLOCKED ∈ (self.check_move st.tokens target_tile).1
      case pos =>
        left; simp [token_action, hi, hturn, hstage, hd, hlt, htile, hb]
      case neg =>
        right
        have hsucc : Msg.MOVE_SUCCESSFULL ∈ (self.check_move st.tokens target_tile).1 := by
          by_contra hn
          exact hb ((check_move_blocked_iff self st.tokens target_tile).mpr hn)
        by_cases hpc : Msg.PATH_COMPLETE ∈ (self.check_move st.tokens target_tile).1
        case pos =>
          refine ⟨self,
            { self with on_path := false,
                        path_position :=
                          self.path_position + ((st.rolled_value.getD 0 : Nat) : Int),
                        finished := true },
            target_tile, rfl, hb, ?_, ?_⟩
          · left; simp [Token.tile_location]
          · by_cases hft : Msg.FREE_TURN ∈ (self.check_move st.tokens target_tile).1 <;>
              simp [token_action, hi, hturn, hstage, hd, hlt, htile, hb, hsucc, hpc, hft,
                    free_turn_tokens, end_turn_tokens, score_point_tokens]
        case neg =>
          refine ⟨self,
            { self with on_path := true,
                        path_position :=
                          self.path_position + ((st.rolled_value.getD 0 : Nat) : Int) },
            target_tile, rfl, hb, ?_, ?_⟩
          · by_cases hfin : self.finished
            · left; simp [Token.tile_location, hfin]
            · by_cases hneg : self.path_position + ((st.rolled_value.getD 0 : Nat) : Int) = -1
              · left; simp [Token.tile_location, hfin, hneg]
              · right; simp [Token.tile_location, hfin, hneg, htile]
          · by_cases hft : Msg.FREE_TURN ∈ (self.check_move st.tokens target_tile).1 <;>
              simp [token_action, hi, hturn, hstage, hd, hlt, htile, hb, hsucc, hpc, hft,
                    free_turn_tokens, end_turn_tokens, score_point_tokens]

theorem token_action_preserves_no_shared (st : GameState) (i : Nat)
    (hInv : NoSharedTiles st.tokens) :
    NoSharedTiles (token_action st i).1.tokens := by
  rcases token_action_tokens_shape st i with h | ⟨self, self2, tile, hi, hb, hself2, heq⟩
  · rw [h]; exact hInv
  · rw [heq]
    by_cases hdisp : Msg.DISPLACED_OPPONENT ∈ (self.check_move st.tokens tile).1
    · rw [if_pos hdisp]
      exact no_shared_set _ _ _ _ (no_shared_displace hInv) hself2
        (fun k t hk => displace_at_clears hInv k t hk)
    · rw [if_neg hdisp]
      have hnone : find_collision st.tokens tile = none :=
        check_move_no_collision self st.tokens tile hb hdisp
      exact no_shared_set _ _ _ _ hInv hself2
        (fun k t hk => find_collision_none hnone k t hk)

theorem token_reset_tile_location (t : Token) :
    (Token.reset t).tile_location = none := by
  simp [Token.reset, Token.tile_location]

theorem step_preserves_no_shared {st st' : GameState} (h : Step st st')
    (hInv : NoSharedTiles st.tokens) : NoSharedTiles st'.tokens := by
  cases h with
  | roll v hv =>
    unfold roll_dice
    split
    · exact hInv
    · split
      · exact hInv
      · exact hInv
  | select i =>
    unfold select_token
    split
    · exact hInv
    · exact token_action_preserves_no_shared st i hInv
  | endTurn => exact hInv
  | newGame =>
    intro j k tj tk pos hjk hj hk htj htk
    have hmap : (start_game st).tokens = st.tokens.map Token.reset := rfl
    rw [hmap, List.getElem?_map] at hj
    rcases hmem : st.tokens[j]? with _ | t
    · rw [hmem] at hj; cases hj
    · rw [hmem] at hj
      simp at hj
      rw [← hj, token_reset_tile_location] at htj
      cases htj

/-- C7: in every state reachable from the freshly constructed game by dice
rolls, token selections, end-turn presses and new games, two distinct tokens
never report the same board tile — at most one on-path token occupies any
given cell, so in particular two tokens of the same player never share a
cell. -/
theorem reachable_no_shared_tiles (st : GameState) (h : Reachable st) :
    NoSharedTiles st.tokens := by
  induction h with
  | refl =>
    intro j k tj tk pos hjk hj hk htj htk
    have hall : ∀ t ∈ initial_tokens, t.on_path = false := by decide
    have hmem := List.getElem?_mem hj
    have : tj.tile_location = none := by
      simp [Token.tile_location, hall tj hmem]
    rw [this] at htj
    cases htj
  | tail hsteps hstep ih => exact step_preserves_no_shared hstep ih

/-- C7 (witness): the invariant evaluated three steps in — new game, a roll
of 4, then selecting token 0. -/
theorem reachable_no_shared_tiles_witness :
    NoSharedTiles (select_token (roll_dice (start_game initial_state) 4) 0).1.tokens :=
  reachable_no_shared_tiles _
    (Relation.ReflTransGen.tail
      (Relation.ReflTransGen.tail
        (Relation.ReflTransGen.tail Relation.ReflTransGen.refl
          (Step.newGame initial_state))
        (Step.roll (start_game initial_state) 4 (by decide)))
      (Step.select (roll_dice (start_game initial_state) 4) 0))

end Ur
